import Mathlib

/-!
Verification of the hazard-scoring pipeline of the planetary-defense system.

The embedding models a single-row pandas DataFrame as an ordered association
list of (column name, rational value) pairs.  Numeric values are embedded as
rationals; a Python float division that would produce a non-finite value
(denominator 0) is modelled by `safeDiv` returning `none`.
-/

namespace PlanetaryDefense

/-- A single-row DataFrame: ordered columns with one rational value each. -/
abbrev Frame := List (String × ℚ)

/-- The ε guard used in both derivations (`1e-5` in the source). -/
def eps : ℚ := 1 / 100000

/-- Division as performed on Python floats: a zero denominator yields a
non-finite value, modelled as `none`. -/
def safeDiv (x y : ℚ) : Option ℚ :=
  if y = 0 then none else some (x / y)

/-- Column membership test (`col in df.columns`). -/
def hasCol : Frame → String → Bool
  | [], _ => false
  | (n, _) :: tl, name => n = name || hasCol tl name

/-- Column read (`df[col]` on a single-row frame). -/
def getCol : Frame → String → Option ℚ
  | [], _ => none
  | (n, v) :: tl, name => if n = name then some v else getCol tl name

/-- Column assignment (`df[col] = value` in pandas): overwrites the column in
place when it exists, otherwise appends it as the last column. -/
def setCol : Frame → String → ℚ → Frame
  | [], name, v => [(name, v)]
  | (n, w) :: tl, name, v =>
    if n = name then (name, v) :: tl else (n, w) :: setCol tl name v

/-- The columns checked by the guard in `engineer_features`
(train.py line 55); note `absolute_magnitude` is not among them. -/
def required_cols : List String :=
  ["est_diameter_min", "relative_velocity", "miss_distance"]

/-- The three column names assigned by the feature derivation. -/
def derived_cols : List String :=
  ["size_dist_ratio", "kinetic_proxy", "velocity_dist_ratio"]

/-- `engineer_features` (train.py lines 52-69): if any required column is
missing, the source prints a diagnostic and returns the frame unchanged;
otherwise it assigns `size_dist_ratio`, `kinetic_proxy` and
`velocity_dist_ratio` in that order. -/
def engineer_features (df : Frame) : Option Frame :=
  if required_cols.all (hasCol df) then
    match getCol df "est_diameter_min", getCol df "relative_velocity",
          getCol df "miss_distance" with
    | some d, some v, some m =>
      (safeDiv d (m + eps)).bind fun sdr =>
      (safeDiv v (m + eps)).bind fun vdr =>
      some (setCol (setCol (setCol df "size_dist_ratio" sdr)
        "kinetic_proxy" (v ^ 2 * d)) "velocity_dist_ratio" vdr)
    | _, _, _ => none
  else
    some df

/-- The validated request body (`AsteroidRequest` in main.py lines 28-32):
four required numeric fields, in declaration order. -/
structure AsteroidRequest where
  est_diameter_min : ℚ
  relative_velocity : ℚ
  miss_distance : ℚ
  absolute_magnitude : ℚ

/-- A raw four-column frame in the field order shared by `fetch_data` and
`data.dict()`. -/
def mkRawFrame (d v m a : ℚ) : Frame :=
  [("est_diameter_min", d), ("relative_velocity", v),
   ("miss_distance", m), ("absolute_magnitude", a)]

/-- `pd.DataFrame([data.dict()])` (main.py line 50): the pydantic model is
serialized in declaration order. -/
def AsteroidRequest.toFrame (r : AsteroidRequest) : Frame :=
  mkRawFrame r.est_diameter_min r.relative_velocity r.miss_distance
    r.absolute_magnitude

/-- The serve-time feature derivation inlined in the `/predict` handler
(main.py lines 50-54): builds the one-row frame from the request and assigns
the three derived columns in the same order as training. -/
def predict_features (data : AsteroidRequest) : Option Frame :=
  let input_df := data.toFrame
  match getCol input_df "est_diameter_min", getCol input_df "relative_velocity",
        getCol input_df "miss_distance" with
  | some d, some v, some m =>
    (safeDiv d (m + eps)).bind fun sdr =>
    (safeDiv v (m + eps)).bind fun vdr =>
    some (setCol (setCol (setCol input_df "size_dist_ratio" sdr)
      "kinetic_proxy" (v ^ 2 * d)) "velocity_dist_ratio" vdr)
  | _, _, _ => none

/-- A derived column of the feature vector produced for a frame. -/
def derivedField (df : Frame) (name : String) : Option ℚ :=
  (engineer_features df).bind fun out => getCol out name

/-- The size-to-distance ratio formula (train.py line 61, main.py line 52). -/
def size_dist_ratio (d m : ℚ) : ℚ := d / (m + eps)

/-- The kinetic-energy proxy formula (train.py line 64, main.py line 53). -/
def kinetic_proxy (d v : ℚ) : ℚ := v ^ 2 * d

/-- The velocity-to-distance ratio formula (train.py line 67, main.py
line 54). -/
def velocity_dist_ratio (v m : ℚ) : ℚ := v / (m + eps)

/-- Modelled from the spec: the fitted classifier pipeline (SMOTE +
XGBClassifier) is an external library artifact whose internals are not part
of this repository's sources.  Per the spec, `predict_proba` yields a
probability in [0,1] for the hazardous class (index 1) and the binary
decision applies the model's single fixed internal threshold. -/
structure TrainedModel where
  proba : Frame → ℚ
  proba_nonneg : ∀ df, 0 ≤ proba df
  proba_le_one : ∀ df, proba df ≤ 1

/-- Modelled from the spec: the fixed internal decision threshold
(default 0.5, not tunable at request time). -/
def TrainedModel.threshold : ℚ := 1 / 2

/-- Modelled from the spec: `model.predict` for the binary classifier is the
thresholded hazardous-class probability. -/
def TrainedModel.predictLabel (mdl : TrainedModel) (df : Frame) : Bool :=
  decide (TrainedModel.threshold ≤ mdl.proba df)

/-- A trivial fitted model used to instantiate general theorems. -/
def constModel : TrainedModel :=
  ⟨fun _ => 1 / 2, fun _ => by norm_num, fun _ => by norm_num⟩

/-- The scoring result built by `ModelManager.predict_hazard`
(model_utils.py lines 51-54). -/
structure PredictionResult where
  is_hazardous : Bool
  hazard_probability : ℚ

/-- Outcome of `ModelManager.predict_hazard`: either the distinct
model-unavailable signal (model_utils.py line 38) or a prediction. -/
inductive PredictOutcome where
  | error (msg : String)
  | result (r : PredictionResult)

/-- `ModelManager.predict_hazard` (model_utils.py lines 33-54): with no
loaded model it returns the error dictionary; otherwise it calls the model's
`predict` and `predict_proba` (hazardous-class entry) on the feature frame. -/
def predict_hazard (mdl : Option TrainedModel) (input_features : Frame) :
    PredictOutcome :=
  match mdl with
  | none => PredictOutcome.error "Model not available"
  | some m =>
    PredictOutcome.result ⟨m.predictLabel input_features, m.proba input_features⟩

/-- A JSON scalar in a request payload. -/
inductive JsonValue where
  | num (q : ℚ)
  | str (s : String)
  | null

/-- A request body before validation: ordered JSON object fields. -/
abbrev Payload := List (String × JsonValue)

/-- Field lookup in a JSON object. -/
def lookupField : Payload → String → Option JsonValue
  | [], _ => none
  | (n, v) :: tl, name => if n = name then some v else lookupField tl name

/-- Modelled from the spec: pydantic validation of one declared float field —
missing or non-numeric input is a validation failure, not a silent zero. -/
def getNum (p : Payload) (name : String) : Except String ℚ :=
  match lookupField p name with
  | some (JsonValue.num q) => Except.ok q
  | some _ => Except.error ("non-numeric value for required field " ++ name)
  | none => Except.error ("missing required field " ++ name)

/-- The four declared fields of `AsteroidRequest`, in declaration order. -/
def request_fields : List String :=
  ["est_diameter_min", "relative_velocity", "miss_distance",
   "absolute_magnitude"]

/-- Modelled from the spec: FastAPI validates the request body against the
`AsteroidRequest` schema (main.py lines 28-32) before the handler body runs;
every declared field is required and numeric. -/
def parseRequest (p : Payload) : Except String AsteroidRequest :=
  match getNum p "est_diameter_min" with
  | Except.error e => Except.error e
  | Except.ok d =>
    match getNum p "relative_velocity" with
    | Except.error e => Except.error e
    | Except.ok v =>
      match getNum p "miss_distance" with
      | Except.error e => Except.error e
      | Except.ok m =>
        match getNum p "absolute_magnitude" with
        | Except.error e => Except.error e
        | Except.ok a => Except.ok ⟨d, v, m, a⟩

/-- A response of the `/predict` endpoint: a prediction (main.py lines 59-62,
with the probability kept as its numeric value) or an HTTP error. -/
inductive Response where
  | ok (is_hazardous : Bool) (probability : ℚ)
  | httpError (status : Nat) (detail : String)

/-- A handler run, instrumented with whether `model.predict` was invoked. -/
structure Traced where
  response : Response
  modelInvoked : Bool

/-- The `/predict` handler body (main.py lines 44-64) on an
already-validated request: 503 when no model is loaded, otherwise feature
derivation followed by model invocation (a non-finite derivation feeds the
catch-all 500 of main.py line 64 in this embedding). -/
def main_predict (model : Option TrainedModel) (data : AsteroidRequest) :
    Traced :=
  match model with
  | none => ⟨Response.httpError 503 "Model not loaded on server.", false⟩
  | some mdl =>
    match predict_features data with
    | none => ⟨Response.httpError 500 "non-finite feature value", false⟩
    | some input_df =>
      ⟨Response.ok (mdl.predictLabel input_df) (mdl.proba input_df), true⟩

/-- The full `/predict` endpoint: schema validation (a 422 bad-request
signal on failure, before the handler body runs), then the handler. -/
def handle_predict (model : Option TrainedModel) (payload : Payload) :
    Traced :=
  match parseRequest payload with
  | Except.error e => ⟨Response.httpError 422 e, false⟩
  | Except.ok data => main_predict model data

/-- `train_and_evaluate` control flow (train.py lines 71-136) as it affects
the persisted artifact, threading the previously persisted artifact
explicitly.  An empty fetch returns before training (lines 74-76).  The
SMOTE + XGBoost grid-search fit (line 118) is external library code;
modelled from the spec: fitting a label-degenerate (single-class) training
set fails, and train.py has no handler for it, so the run aborts before the
`joblib.dump` of line 135.  Only a fully successful run reaches the dump,
which replaces the artifact. -/
def train_and_evaluate (fit : List (AsteroidRequest × Bool) → TrainedModel)
    (prevArtifact : Option TrainedModel)
    (raw : List (AsteroidRequest × Bool)) :
    Option TrainedModel × Except String Unit :=
  if raw.isEmpty then
    (prevArtifact, Except.error "No data fetched. Check your API key and connection.")
  else if (raw.any fun rec => rec.2) && (raw.any fun rec => !rec.2) then
    (some (fit raw), Except.ok ())
  else
    (prevArtifact, Except.error "TrainingDataError: single-class labels")

/-- The Apophis-like raw record of concrete scenario 1:
diameter 0.37, velocity 108000, distance 31000, magnitude 19.7. -/
def apophisFrame : Frame :=
  mkRawFrame (37 / 100) 108000 31000 (197 / 10)

/-- The Apophis-like record as a validated request. -/
def apophisRequest : AsteroidRequest :=
  ⟨37 / 100, 108000, 31000, 197 / 10⟩

/-- A training-style frame missing the required `miss_distance` column. -/
def missingColFrame : Frame :=
  [("est_diameter_min", 37 / 100), ("relative_velocity", 108000),
   ("absolute_magnitude", 197 / 10)]

/-- A frame with the four raw columns and a pre-existing column that happens
to be named like a derived one. -/
def clashFrame : Frame :=
  [("est_diameter_min", 1), ("relative_velocity", 2), ("miss_distance", 0),
   ("absolute_magnitude", 0), ("size_dist_ratio", 999)]

/-- A frame with the four raw columns plus an extra label column, as inside
the training pipeline. -/
def labeledFrame : Frame :=
  [("est_diameter_min", 1), ("relative_velocity", 2), ("miss_distance", 3),
   ("absolute_magnitude", 4), ("is_hazardous", 1)]

/-- The output of the derivation on `labeledFrame`. -/
def labeledFrameOut : Frame :=
  labeledFrame ++
    [("size_dist_ratio", 100000 / 300001), ("kinetic_proxy", 4),
     ("velocity_dist_ratio", 200000 / 300001)]

/-- A request payload missing the required `miss_distance` field
(concrete scenario 3). -/
def missingFieldPayload : Payload :=
  [("est_diameter_min", JsonValue.num (37 / 100)),
   ("relative_velocity", JsonValue.num 108000),
   ("absolute_magnitude", JsonValue.num (197 / 10))]

/-- Claim C7 as stated: over the documented domain (non-negative diameter,
velocity and distances), strictly increasing the velocity strictly
increases the kinetic proxy, and strictly decreasing the miss distance
strictly increases both ratio features. -/
def claimC7Prop : Prop :=
  ∀ d v v2 m m2 : ℚ, 0 ≤ d → 0 ≤ v → 0 ≤ m → 0 ≤ m2 →
    (v < v2 → kinetic_proxy d v < kinetic_proxy d v2) ∧
    (m2 < m → size_dist_ratio d m < size_dist_ratio d m2 ∧
      velocity_dist_ratio v m < velocity_dist_ratio v m2)

/-! ## Association-list lemmas for column assignment -/

/-- Reading the column just assigned yields the assigned value. -/
theorem getCol_setCol_self (df : Frame) (name : String) (v : ℚ) :
    getCol (setCol df name v) name = some v := by
  induction df with
  | nil => simp [setCol, getCol]
  | cons p tl ih =>
    obtain ⟨n, w⟩ := p
    by_cases h : n = name
    · simp [setCol, h, getCol]
    · simp [setCol, h, getCol, ih]

/-- Assigning one column leaves every other column unchanged. -/
theorem getCol_setCol_ne (df : Frame) (name other : String) (v : ℚ)
    (h : other ≠ name) :
    getCol (setCol df name v) other = getCol df other := by
  induction df with
  | nil => simp [setCol, getCol, Ne.symm h]
  | cons p tl ih =>
    obtain ⟨n, w⟩ := p
    by_cases hn : n = name
    · subst hn
      simp [setCol, getCol, Ne.symm h]
    · by_cases ho : n = other
      · subst ho
        simp [setCol, hn, getCol]
      · simp [setCol, hn, getCol, ho, ih]

/-- Assignment adds no column other than the assigned one. -/
theorem hasCol_setCol (df : Frame) (name other : String) (v : ℚ)
    (h : hasCol (setCol df name v) other = true) :
    hasCol df other = true ∨ other = name := by
  induction df with
  | nil =>
    simp [setCol, hasCol] at h
    exact Or.inr h.symm
  | cons p tl ih =>
    obtain ⟨n, w⟩ := p
    by_cases hn : n = name
    · subst hn
      simp [setCol, hasCol] at h ⊢
      rcases h with h | h
      · exact Or.inr h.symm
      · exact Or.inl (Or.inr h)
    · simp [setCol, hn, hasCol] at h ⊢
      rcases h with h | h
      · exact Or.inl (Or.inl h)
      · rcases ih h with h2 | h2
        · exact Or.inl (Or.inr h2)
        · exact Or.inr h2

/-- A present column can be read. -/
theorem getCol_isSome_of_hasCol (df : Frame) (name : String)
    (h : hasCol df name = true) : ∃ q, getCol df name = some q := by
  induction df with
  | nil => simp [hasCol] at h
  | cons p tl ih =>
    obtain ⟨n, w⟩ := p
    by_cases hn : n = name
    · exact ⟨w, by simp [getCol, hn]⟩
    · simp [hasCol, hn] at h
      obtain ⟨q, hq⟩ := ih h
      exact ⟨q, by simp [getCol, hn, hq]⟩

/-- Evaluation of `engineer_features` on a raw four-column frame whose
ε-guarded denominator is nonzero: the three derived columns are appended in
source order with the source formulas as values. -/
theorem engineer_features_mkRawFrame (d v m a : ℚ) (hm : m + eps ≠ 0) :
    engineer_features (mkRawFrame d v m a) =
      some (mkRawFrame d v m a ++
        [("size_dist_ratio", size_dist_ratio d m),
         ("kinetic_proxy", kinetic_proxy d v),
         ("velocity_dist_ratio", velocity_dist_ratio v m)]) := by
  simp [engineer_features, mkRawFrame, required_cols, hasCol, getCol, setCol,
    safeDiv, hm, size_dist_ratio, kinetic_proxy, velocity_dist_ratio]

/-! ## The claims -/

/-- C1: train/serve parity.  For every request, the feature vector built by
the `/predict` handler equals, field for field and in column order/naming,
the one built by `engineer_features` on the same raw values. -/
theorem c1_train_serve_parity (r : AsteroidRequest) :
    predict_features r = engineer_features r.toFrame := by
  rfl

/-- C2 counterexample: on the Apophis-like record the code's
`kinetic_proxy` is 4315680000 ≈ 4.316e9, which differs from the claimed
4.317e12 by more than 50% of the claimed value (it is a factor 1000 off). -/
theorem c2_counterexample :
    derivedField apophisFrame "kinetic_proxy" = some 4315680000 ∧
    (4317 * 10 ^ 9 : ℚ) / 2 < |(4315680000 : ℚ) - 4317 * 10 ^ 9| := by
  constructor
  · rw [derivedField, apophisFrame,
      engineer_features_mkRawFrame _ _ _ _ (by norm_num [eps])]
    simp [mkRawFrame, getCol, kinetic_proxy]
    norm_num
  · rw [abs_sub_comm, abs_of_pos (by norm_num : (0 : ℚ) < 4317 * 10 ^ 9 - 4315680000)]
    norm_num

/-- C2 amended: on the Apophis-like record the derivation yields
`kinetic_proxy` within 0.1% of 4.316e9 (the value of the claim's own product
108000² × 0.37; the claimed 4.317e12 misplaces the decimal point) and
`size_dist_ratio` within 1e-8 of the claimed 1.194e-5. -/
theorem c2_concrete_scenario_one :
    derivedField apophisFrame "kinetic_proxy" = some 4315680000 ∧
    |(4315680000 : ℚ) - 4316 * 10 ^ 6| < 4316 * 10 ^ 3 ∧
    derivedField apophisFrame "size_dist_ratio" = some (37000 / 3100000001) ∧
    |(37000 / 3100000001 : ℚ) - 1194 / 10 ^ 8| < 1 / 10 ^ 8 := by
  refine ⟨?_, ?_, ?_, ?_⟩
  · rw [derivedField, apophisFrame,
      engineer_features_mkRawFrame _ _ _ _ (by norm_num [eps])]
    simp [mkRawFrame, getCol, kinetic_proxy]
    norm_num
  · rw [abs_lt]
    constructor <;> norm_num
  · rw [derivedField, apophisFrame,
      engineer_features_mkRawFrame _ _ _ _ (by norm_num [eps])]
    simp [mkRawFrame, getCol, size_dist_ratio, eps]
    norm_num
  · rw [abs_lt]
    constructor <;> norm_num

/-- C3: for every loaded model and feature frame, the scoring result has
`hazard_probability` in [0,1] and `is_hazardous` equal to the probability
compared against the model's fixed internal threshold. -/
theorem c3_probability_range (mdl : TrainedModel) (df : Frame)
    (r : PredictionResult)
    (h : predict_hazard (some mdl) df = PredictOutcome.result r) :
    (0 ≤ r.hazard_probability ∧ r.hazard_probability ≤ 1) ∧
    r.is_hazardous = decide (TrainedModel.threshold ≤ r.hazard_probability) := by
  simp only [predict_hazard] at h
  injection h with h2
  subst h2
  exact ⟨⟨mdl.proba_nonneg df, mdl.proba_le_one df⟩, rfl⟩

/-- Witness for C3 at the constant model and the empty frame. -/
theorem c3_probability_range_witness :
    (0 ≤ (1 / 2 : ℚ) ∧ (1 / 2 : ℚ) ≤ 1) ∧
    true = decide (TrainedModel.threshold ≤ (1 / 2 : ℚ)) :=
  c3_probability_range constModel [] ⟨true, 1 / 2⟩ (by
    simp [predict_hazard, constModel, TrainedModel.predictLabel,
      TrainedModel.threshold])

/-- C4: with no loaded model, `predict_hazard` returns the distinct
model-unavailable signal on every input and never a prediction result, and
the `/predict` handler body returns the 503 signal without invoking a
model. -/
theorem c4_unready_behavior (df : Frame) (data : AsteroidRequest) :
    predict_hazard none df = PredictOutcome.error "Model not available" ∧
    (∀ r, predict_hazard none df ≠ PredictOutcome.result r) ∧
    (main_predict none data).response =
      Response.httpError 503 "Model not loaded on server." ∧
    (main_predict none data).modelInvoked = false := by
  refine ⟨rfl, ?_, rfl, rfl⟩
  intro r h
  simp [predict_hazard] at h

/-- C5 counterexample: on a frame missing the required `miss_distance`
column, `engineer_features` does not signal an error — it returns the input
unchanged. -/
theorem c5_counterexample :
    required_cols.all (hasCol missingColFrame) = false ∧
    engineer_features missingColFrame = some missingColFrame := by
  exact ⟨by decide, rfl⟩

/-- C5 amended: on every frame failing the required-column check, the
derivation swallows the problem — it prints a diagnostic and returns the
input frame unchanged instead of failing closed. -/
theorem c5_missing_columns_swallowed (df : Frame)
    (h : required_cols.all (hasCol df) = false) :
    engineer_features df = some df := by
  simp [engineer_features, h]

/-- Witness for C5 at the concrete frame missing `miss_distance`. -/
theorem c5_missing_columns_swallowed_witness :
    engineer_features missingColFrame = some missingColFrame :=
  c5_missing_columns_swallowed missingColFrame (by decide)

/-- C6: ε-guard totality.  For every raw record with `miss_distance = 0`
and non-negative diameter and velocity, the derivation succeeds and both
ratio features are the finite values obtained with denominator ε. -/
theorem c6_epsilon_guard_totality (d v a : ℚ) (hd : 0 ≤ d) (hv : 0 ≤ v) :
    engineer_features (mkRawFrame d v 0 a) =
      some (mkRawFrame d v 0 a ++
        [("size_dist_ratio", size_dist_ratio d 0),
         ("kinetic_proxy", kinetic_proxy d v),
         ("velocity_dist_ratio", velocity_dist_ratio v 0)]) ∧
    derivedField (mkRawFrame d v 0 a) "size_dist_ratio" = some (d * 100000) ∧
    derivedField (mkRawFrame d v 0 a) "velocity_dist_ratio" =
      some (v * 100000) := by
  have hm : (0 : ℚ) + eps ≠ 0 := by norm_num [eps]
  have heval := engineer_features_mkRawFrame d v 0 a hm
  refine ⟨heval, ?_, ?_⟩
  · rw [derivedField, heval]
    simp [mkRawFrame, getCol, size_dist_ratio, eps]
  · rw [derivedField, heval]
    simp [mkRawFrame, getCol, velocity_dist_ratio, eps]

/-- Witness for C6 at the Apophis-like diameter and velocity. -/
theorem c6_epsilon_guard_totality_witness :
    derivedField (mkRawFrame (37 / 100) 108000 0 (197 / 10))
      "size_dist_ratio" = some (37 / 100 * 100000) :=
  (c6_epsilon_guard_totality (37 / 100) 108000 (197 / 10) (by norm_num)
    (by norm_num)).2.1

/-- C7 counterexample: the claimed strict monotonicity fails on the
documented domain — at `est_diameter_min = 0` the kinetic proxy is
constantly 0, so increasing the velocity does not strictly increase it. -/
theorem c7_counterexample : ¬ claimC7Prop := by
  intro h
  have h0 := (h 0 0 1 0 0 le_rfl le_rfl le_rfl le_rfl).1 (by norm_num)
  norm_num [kinetic_proxy] at h0

/-- C7 amended: the strict monotonicities hold once the fixed multiplier is
positive — increasing velocity strictly increases `kinetic_proxy` when the
diameter is positive, and decreasing `miss_distance` strictly increases
`size_dist_ratio` when the diameter is positive and `velocity_dist_ratio`
when the velocity is positive. -/
theorem c7_monotonicity (d v v2 m m2 : ℚ) (hd : 0 ≤ d) (hv : 0 ≤ v)
    (hm : 0 ≤ m) (hm2 : 0 ≤ m2) :
    (0 < d → v < v2 → kinetic_proxy d v < kinetic_proxy d v2) ∧
    (m2 < m → (0 < d → size_dist_ratio d m < size_dist_ratio d m2) ∧
      (0 < v → velocity_dist_ratio v m < velocity_dist_ratio v m2)) := by
  have hepos : (0 : ℚ) < eps := by norm_num [eps]
  refine ⟨fun hdpos hlt => ?_, fun hmlt => ⟨fun hdpos => ?_, fun hvpos => ?_⟩⟩
  · have hsq : v ^ 2 < v2 ^ 2 := pow_lt_pow_left₀ hlt hv (by norm_num)
    unfold kinetic_proxy
    exact mul_lt_mul_of_pos_right hsq hdpos
  · unfold size_dist_ratio
    exact div_lt_div_of_pos_left hdpos (by linarith) (by linarith)
  · unfold velocity_dist_ratio
    exact div_lt_div_of_pos_left hvpos (by linarith) (by linarith)

/-- Witness for C7 at diameter 1, velocities 1 < 2, distances 1 > 0. -/
theorem c7_monotonicity_witness :
    kinetic_proxy 1 1 < kinetic_proxy 1 2 ∧
    size_dist_ratio 1 1 < size_dist_ratio 1 0 ∧
    velocity_dist_ratio 1 1 < velocity_dist_ratio 1 0 :=
  ⟨(c7_monotonicity 1 1 2 1 0 (by norm_num) (by norm_num) (by norm_num)
      (by norm_num)).1 (by norm_num) (by norm_num),
   ((c7_monotonicity 1 1 2 1 0 (by norm_num) (by norm_num) (by norm_num)
      (by norm_num)).2 (by norm_num)).1 (by norm_num),
   ((c7_monotonicity 1 1 2 1 0 (by norm_num) (by norm_num) (by norm_num)
      (by norm_num)).2 (by norm_num)).2 (by norm_num)⟩

/-- C8: a training run on an empty or single-class dataset fails with an
error, writes no artifact, and leaves the previously persisted artifact
untouched. -/
theorem c8_degenerate_training_no_artifact
    (fit : List (AsteroidRequest × Bool) → TrainedModel)
    (prev : Option TrainedModel) (raw : List (AsteroidRequest × Bool))
    (h : raw = [] ∨ (∀ rec ∈ raw, rec.2 = false) ∨
      (∀ rec ∈ raw, rec.2 = true)) :
    (train_and_evaluate fit prev raw).1 = prev ∧
    ∃ e, (train_and_evaluate fit prev raw).2 = Except.error e := by
  by_cases hemp : raw.isEmpty
  · refine ⟨by simp [train_and_evaluate, hemp], ?_⟩
    exact ⟨"No data fetched. Check your API key and connection.",
      by simp [train_and_evaluate, hemp]⟩
  · rcases h with rfl | hall | hall
    · simp at hemp
    · have h1 : (raw.any fun rec => rec.2) = false := by
        rw [List.any_eq_false]
        intro x hx
        simp [hall x hx]
      refine ⟨by simp [train_and_evaluate, hemp, h1], ?_⟩
      exact ⟨"TrainingDataError: single-class labels",
        by simp [train_and_evaluate, hemp, h1]⟩
    · have h2 : (raw.any fun rec => !rec.2) = false := by
        rw [List.any_eq_false]
        intro x hx
        simp [hall x hx]
      refine ⟨by simp [train_and_evaluate, hemp, h2], ?_⟩
      exact ⟨"TrainingDataError: single-class labels",
        by simp [train_and_evaluate, hemp, h2]⟩

/-- Witness for C8 on a dataset whose only record carries the negative
label (concrete scenario 4). -/
theorem c8_degenerate_training_no_artifact_witness :
    (train_and_evaluate (fun _ => constModel) none
      [(apophisRequest, false)]).1 = none :=
  (c8_degenerate_training_no_artifact (fun _ => constModel) none
    [(apophisRequest, false)]
    (Or.inr (Or.inl (fun rec hrec => by
      rw [List.mem_singleton] at hrec
      rw [hrec])))).1

/-- A declared field that is absent or non-numeric makes the pydantic field
validation fail. -/
theorem getNum_error (p : Payload) (name : String)
    (h : ∀ q, lookupField p name ≠ some (JsonValue.num q)) :
    ∃ e, getNum p name = Except.error e := by
  unfold getNum
  cases hl : lookupField p name with
  | none => exact ⟨_, rfl⟩
  | some val =>
    cases val with
    | num q => exact absurd hl (h q)
    | str s => exact ⟨_, rfl⟩
    | null => exact ⟨_, rfl⟩

/-- A request with any absent or non-numeric declared field fails schema
validation. -/
theorem parseRequest_error (p : Payload)
    (h : ∃ name ∈ request_fields,
      ∀ q, lookupField p name ≠ some (JsonValue.num q)) :
    ∃ e, parseRequest p = Except.error e := by
  obtain ⟨name, hmem, hbad⟩ := h
  simp [request_fields] at hmem
  rcases hmem with rfl | rfl | rfl | rfl
  · obtain ⟨e, he⟩ := getNum_error p _ hbad
    exact ⟨e, by simp [parseRequest, he]⟩
  · obtain ⟨e, he⟩ := getNum_error p _ hbad
    cases h1 : getNum p "est_diameter_min" with
    | error e1 => exact ⟨e1, by simp [parseRequest, h1]⟩
    | ok d => exact ⟨e, by simp [parseRequest, h1, he]⟩
  · obtain ⟨e, he⟩ := getNum_error p _ hbad
    cases h1 : getNum p "est_diameter_min" with
    | error e1 => exact ⟨e1, by simp [parseRequest, h1]⟩
    | ok d =>
      cases h2 : getNum p "relative_velocity" with
      | error e2 => exact ⟨e2, by simp [parseRequest, h1, h2]⟩
      | ok v => exact ⟨e, by simp [parseRequest, h1, h2, he]⟩
  · obtain ⟨e, he⟩ := getNum_error p _ hbad
    cases h1 : getNum p "est_diameter_min" with
    | error e1 => exact ⟨e1, by simp [parseRequest, h1]⟩
    | ok d =>
      cases h2 : getNum p "relative_velocity" with
      | error e2 => exact ⟨e2, by simp [parseRequest, h1, h2]⟩
      | ok v =>
        cases h3 : getNum p "miss_distance" with
        | error e3 => exact ⟨e3, by simp [parseRequest, h1, h2, h3]⟩
        | ok m => exact ⟨e, by simp [parseRequest, h1, h2, h3, he]⟩

/-- C9: a request missing one of the four declared fields, or carrying a
non-numeric value for one, is answered with the distinct 422 validation
signal, and the model is never invoked. -/
theorem c9_validation_rejects_malformed (model : Option TrainedModel)
    (p : Payload)
    (h : ∃ name ∈ request_fields,
      ∀ q, lookupField p name ≠ some (JsonValue.num q)) :
    (handle_predict model p).modelInvoked = false ∧
    ∃ e, (handle_predict model p).response = Response.httpError 422 e := by
  obtain ⟨e, he⟩ := parseRequest_error p h
  exact ⟨by simp [handle_predict, he], e, by simp [handle_predict, he]⟩

/-- Witness for C9 at the payload missing `miss_distance`
(concrete scenario 3), with a model loaded. -/
theorem c9_validation_rejects_malformed_witness :
    (handle_predict (some constModel) missingFieldPayload).modelInvoked =
      false :=
  (c9_validation_rejects_malformed (some constModel) missingFieldPayload
    ⟨"miss_distance", by decide, fun q => by
      simp [missingFieldPayload, lookupField]⟩).1

/-- Evaluation of the derivation on the labeled training-style frame. -/
theorem engineer_features_labeledFrame :
    engineer_features labeledFrame = some labeledFrameOut := by
  simp [engineer_features, labeledFrame, labeledFrameOut, required_cols,
    hasCol, getCol, setCol, safeDiv, eps]
  norm_num

/-- C10 counterexample: on a frame that already carries a column named
`size_dist_ratio`, the derivation overwrites its value (999 becomes the
derived 100000) instead of leaving every pre-existing field unchanged. -/
theorem c10_counterexample :
    getCol clashFrame "size_dist_ratio" = some 999 ∧
    derivedField clashFrame "size_dist_ratio" = some 100000 ∧
    (999 : ℚ) ≠ 100000 := by
  refine ⟨rfl, ?_, by norm_num⟩
  simp [derivedField, engineer_features, clashFrame, required_cols, hasCol,
    getCol, setCol, safeDiv, eps]

/-- C10 amended: on every frame with the four raw columns on which the
derivation succeeds, it leaves every column whose name is not one of the
three derived names unchanged (the raw fields in particular), populates the
three derived columns, and adds no other column; a pre-existing column with
a derived name is overwritten. -/
theorem c10_frame_effect (df out : Frame)
    (hd : hasCol df "est_diameter_min" = true)
    (hv : hasCol df "relative_velocity" = true)
    (hm : hasCol df "miss_distance" = true)
    (ha : hasCol df "absolute_magnitude" = true)
    (h : engineer_features df = some out) :
    (∀ name, name ∉ derived_cols → getCol out name = getCol df name) ∧
    (∀ name ∈ derived_cols, ∃ q, getCol out name = some q) ∧
    (∀ name, hasCol out name = true →
      hasCol df name = true ∨ name ∈ derived_cols) := by
  have hall : required_cols.all (hasCol df) = true := by
    simp [required_cols, hd, hv, hm]
  obtain ⟨d, hgd⟩ := getCol_isSome_of_hasCol df _ hd
  obtain ⟨v, hgv⟩ := getCol_isSome_of_hasCol df _ hv
  obtain ⟨m, hgm⟩ := getCol_isSome_of_hasCol df _ hm
  unfold engineer_features at h
  rw [if_pos hall, hgd, hgv, hgm] at h
  by_cases hz : m + eps = 0
  · simp [safeDiv, hz] at h
  · simp [safeDiv, hz] at h
    subst h
    refine ⟨?_, ?_, ?_⟩
    · intro name hname
      simp only [derived_cols, List.mem_cons, List.mem_singleton,
        List.mem_nil_iff, or_false, not_or] at hname
      rw [getCol_setCol_ne _ _ _ _ hname.2.2,
        getCol_setCol_ne _ _ _ _ hname.2.1,
        getCol_setCol_ne _ _ _ _ hname.1]
    · intro name hnm
      simp only [derived_cols, List.mem_cons, List.mem_singleton,
        List.mem_nil_iff, or_false] at hnm
      rcases hnm with rfl | rfl | rfl
      · exact ⟨_, by rw [getCol_setCol_ne _ _ _ _ (by decide),
          getCol_setCol_ne _ _ _ _ (by decide), getCol_setCol_self]⟩
      · exact ⟨_, by rw [getCol_setCol_ne _ _ _ _ (by decide),
          getCol_setCol_self]⟩
      · exact ⟨_, by rw [getCol_setCol_self]⟩
    · intro name hno
      rcases hasCol_setCol _ _ _ _ hno with h1 | rfl
      · rcases hasCol_setCol _ _ _ _ h1 with h2 | rfl
        · rcases hasCol_setCol _ _ _ _ h2 with h3 | rfl
          · exact Or.inl h3
          · exact Or.inr (by simp [derived_cols])
        · exact Or.inr (by simp [derived_cols])
      · exact Or.inr (by simp [derived_cols])

/-- Witness for C10 on the labeled training-style frame: the extra
`is_hazardous` column is untouched. -/
theorem c10_frame_effect_witness :
    getCol labeledFrameOut "is_hazardous" = getCol labeledFrame "is_hazardous" :=
  (c10_frame_effect labeledFrame labeledFrameOut (by decide) (by decide)
    (by decide) (by decide) engineer_features_labeledFrame).1 "is_hazardous"
    (by decide)

end PlanetaryDefense
